import Mathlib

/-!
Verification development for the Black Duck MCP server's fix-guidance
resolution pipeline.

The TypeScript sources are embedded shallowly:

* `src/tools/fix-guidance.utils.ts` — pure utilities (risk aggregation,
  identifier extraction, comparison recommendation) as top-level functions.
* `src/tools/fix-guidance.ts` — the refactored pipeline, namespace
  `FixGuidance`.
* `src/tools/remediation.ts` (appended monolithic `getVulnerabilityFixGuidance`)
  — namespace `Remediation`.
* `src/utils/errors.ts` — `formatErrorForMCP` over a model of thrown JS values.

Modelling conventions:

* A JavaScript value of static type `string` that can be `undefined` at
  runtime (e.g. an out-of-bounds array element) is `Option String`
  (`none` = `undefined`).
* Thrown values are `JsError`; fallible collaborator calls return
  `Except JsError α`.  The collaborator HTTP client is a record of
  functions (`BlackDuckClient`), so theorems quantify over every client
  behaviour.
* JS truthiness, `indexOf` (returning `-1`), template-literal coercion of
  `undefined` to the string `"undefined"`, `Array.prototype.filter(Boolean)`
  and `JSON.stringify`'s dropping of `undefined`-valued object fields are
  modelled explicitly by the `js*` helpers below.
* Floating-point scores (`baseScore` etc.) are never computed with by the
  pipeline, only carried verbatim; they are modelled as opaque rendered
  strings.
-/

/-! ### JavaScript semantics helpers -/

/-- JS `Array.prototype.indexOf` on an array of strings: first index of the
element, `-1` when absent. -/
def jsIndexOf (l : List String) (s : String) : Int :=
  match l with
  | [] => -1
  | a :: rest =>
      if a = s then 0
      else
        let r := jsIndexOf rest s
        if r = -1 then -1 else r + 1

/-- JS array indexing `l[i]`: `undefined` (`none`) when out of bounds or the
index is negative. -/
def jsGetAt (l : List String) (i : Int) : Option String :=
  if i < 0 then none else l.get? i.toNat

/-- Rendering of a possibly-`undefined` string inside a JS template literal:
`undefined` prints as the literal text `"undefined"`. -/
def jsTemplate (s : Option String) : String :=
  match s with
  | some v => v
  | none => "undefined"

/-- JS `a || b` for a possibly-`undefined` string `a` with a string default:
falsy (`undefined` or `""`) falls through to the default. -/
def jsOr (a : Option String) (b : String) : String :=
  match a with
  | some v => if v = "" then b else v
  | none => b

/-- Truthiness of a possibly-`undefined` string: `undefined` and `""` are
falsy. -/
def jsTruthy (s : Option String) : Bool :=
  match s with
  | some v => v ≠ ""
  | none => false

/-- JS `String.prototype.trim`: strip leading and trailing whitespace.
(Defined over the character list so that it evaluates inside the kernel;
the library's `String.trim` computes the same result.) -/
def jsTrim (s : String) : String :=
  ⟨((s.data.dropWhile Char.isWhitespace).reverse.dropWhile Char.isWhitespace).reverse⟩

/-- JS `String.prototype.split` with a one-character separator.
(`"".split(sep)` is `[""]`, a leading separator yields a leading `""`.) -/
def jsSplit (s : String) (sep : Char) : List String :=
  go [] s.data
where
  go (acc : List Char) : List Char → List String
    | [] => [String.mk acc.reverse]
    | c :: rest =>
        if c = sep then String.mk acc.reverse :: go [] rest
        else go (c :: acc) rest

/-- The blank test used by parameter validation:
`!field || field.trim().length === 0`. -/
def jsBlank (s : String) : Bool :=
  s = "" || jsTrim s = ""

/-- JS `array.filter(Boolean)` over an array whose elements are strings or
`null`/`undefined` (modelled as `Option String`): keeps exactly the truthy
elements (non-empty strings). -/
def jsFilterBoolean (l : List (Option String)) : List String :=
  l.filterMap (fun o =>
    match o with
    | some s => if s = "" then none else some s
    | none => none)

/-! ### Thrown JS values and `formatErrorForMCP` (src/utils/errors.ts) -/

/-- A thrown JS value as seen by `formatErrorForMCP`: an instance of the
`BlackDuckError` hierarchy (carrying its `name`), a plain `Error`, or a
non-`Error` value (carried as its `String(...)` rendering). -/
inductive JsError where
  | blackDuck (name message : String)
  | error (message : String)
  | other (stringRep : String)
deriving DecidableEq

/-- The error-kind label that `formatErrorForMCP` prints before the colon:
the `name` for `BlackDuckError`s, `"Error"` for plain errors, and
`"Unknown error"` otherwise. -/
def JsError.kind : JsError → String
  | .blackDuck name _ => name
  | .error _ => "Error"
  | .other _ => "Unknown error"

/-- The message part printed after the colon. -/
def JsError.payload : JsError → String
  | .blackDuck _ message => message
  | .error message => message
  | .other stringRep => stringRep

/-- Embedding of `formatErrorForMCP` (src/utils/errors.ts lines 264-274). -/
def formatErrorForMCP (e : JsError) : String :=
  match e with
  | .blackDuck name message => name ++ ": " ++ message
  | .error message => "Error: " ++ message
  | .other stringRep => "Unknown error: " ++ stringRep

/-! ### Data model (payload shapes of the collaborator client) -/

/-- Severity-bucketed remaining-vulnerability counts
(`VulnerabilityRiskCounts` in src/client/types.ts). -/
structure VulnerabilityRiskCounts where
  critical : Nat
  high : Nat
  medium : Nat
  low : Nat
deriving DecidableEq

/-- Dependency classification of the first dependency-path item. -/
inductive DependencyType where
  | DIRECT
  | TRANSITIVE
deriving DecidableEq

/-- String rendering of a `DependencyType` (as it appears in the JSON
output). -/
def DependencyType.render : DependencyType → String
  | .DIRECT => "DIRECT"
  | .TRANSITIVE => "TRANSITIVE"

/-- A link object inside a dependency-path node's `_meta.links`. -/
structure LinkObj where
  rel : String
  href : Option String
deriving DecidableEq

/-- The `_meta` object of a path node; its `links` array may be absent. -/
structure MetaObj where
  links : Option (List LinkObj)
deriving DecidableEq

/-- A node of a dependency path; `_meta` itself may be absent. -/
structure PathNode where
  _meta : Option MetaObj
deriving DecidableEq

/-- One item of the dependency-paths payload. -/
structure DependencyPathItem where
  type : DependencyType
  path : Option (List PathNode)
deriving DecidableEq

/-- The dependency-paths payload: its `items` array may be absent. -/
structure DependencyPaths where
  items : Option (List DependencyPathItem)
deriving DecidableEq

/-- One horizon (short-term or long-term) of the upgrade-guidance payload. -/
structure UpgradeTermGuidance where
  versionName : Option String
  vulnerabilityRisk : VulnerabilityRiskCounts
  originExternalId : Option String
deriving DecidableEq

/-- The upgrade-guidance payload.  A horizon that the platform does not
offer is absent (`undefined` in the JS payload, `none` here). -/
structure UpgradeGuidance where
  componentName : Option String
  versionName : Option String
  originExternalId : Option String
  shortTerm : Option UpgradeTermGuidance
  longTerm : Option UpgradeTermGuidance
deriving DecidableEq

/-- The `cvss3` sub-object of a vulnerability-remediation payload; the score
fields are carried opaquely as their rendered form. -/
structure Cvss3Data where
  baseScore : Option String
  severity : Option String
  vector : Option String
deriving DecidableEq

/-- A vulnerability-remediation payload (context fetch). -/
structure VulnerabilityDetails where
  vulnerabilityName : Option String
  severity : Option String
  baseScore : Option String
  description : Option String
  cvss3 : Option Cvss3Data
  remediationStatus : Option String
  cweId : Option String
deriving DecidableEq

/-- The collaborator HTTP client, as a record of behaviours.  The guidance
endpoints take `Option String` identifiers because the pipelines can pass
them runtime-`undefined` values extracted from hrefs. -/
structure BlackDuckClient where
  getVulnerabilityRemediation :
    String → String → String → String → String → Except JsError VulnerabilityDetails
  getDependencyPaths : String → String → String → Except JsError DependencyPaths
  getUpgradeGuidance : Option String → Option String → Except JsError UpgradeGuidance
  getTransitiveUpgradeGuidance :
    Option String → Option String → Option String → Except JsError UpgradeGuidance

/-- The six caller-supplied coordinates
(`GetVulnerabilityFixGuidanceParams`). -/
structure GetVulnerabilityFixGuidanceParams where
  projectId : String
  projectVersionId : String
  componentId : String
  componentVersionId : String
  vulnerabilityId : String
  originId : String
deriving DecidableEq

/-! ### fix-guidance.utils.ts (src/unnamed/part_000, lines 14-143) -/

/-- `FixAvailability` record. -/
structure FixAvailability where
  hasShortTermFix : Bool
  hasLongTermFix : Bool
  hasAnyFix : Bool
deriving DecidableEq

/-- `getTotalVulnerabilities` (utils lines 53-55). -/
def getTotalVulnerabilities (risks : VulnerabilityRiskCounts) : Nat :=
  risks.critical + risks.high + risks.medium + risks.low

/-- `calculateRiskReduction` (utils lines 29-48). -/
def calculateRiskReduction (remainingRisks : VulnerabilityRiskCounts) : String :=
  let total := getTotalVulnerabilities remainingRisks
  if total = 0 then
    "Eliminates all known vulnerabilities"
  else
    let criticalAndHigh := remainingRisks.critical + remainingRisks.high
    if criticalAndHigh = 0 then
      "Eliminates all critical and high severity vulnerabilities (" ++
        toString total ++ " low/medium remain)"
    else
      let parts : List String :=
        (if remainingRisks.critical > 0 then [toString remainingRisks.critical ++ " critical"] else []) ++
        (if remainingRisks.high > 0 then [toString remainingRisks.high ++ " high"] else []) ++
        (if remainingRisks.medium > 0 then [toString remainingRisks.medium ++ " medium"] else []) ++
        (if remainingRisks.low > 0 then [toString remainingRisks.low ++ " low"] else [])
      toString total ++ " vulnerabilities remain: " ++ String.intercalate ", " parts

/-- `getFixAvailability` (utils lines 60-66): a horizon counts as available
iff the payload field is not `undefined`. -/
def getFixAvailability (upgradeGuidance : UpgradeGuidance) : FixAvailability :=
  let hasShortTermFix := upgradeGuidance.shortTerm.isSome
  let hasLongTermFix := upgradeGuidance.longTerm.isSome
  let hasAnyFix := hasShortTermFix || hasLongTermFix
  ⟨hasShortTermFix, hasLongTermFix, hasAnyFix⟩

/-- The record returned by the identifier extraction; every field can be a
runtime-`undefined` string. -/
structure ExtractedIds where
  componentId : Option String
  componentVersionId : Option String
  originId : Option String
deriving DecidableEq

/-- `parseComponentIdsFromHref` (utils lines 101-125). -/
def parseComponentIdsFromHref (href : String) (dependencyType : DependencyType) :
    Option ExtractedIds :=
  let hrefParts := jsSplit href '/'
  let componentsIndex := jsIndexOf hrefParts "components"
  let versionsIndex := jsIndexOf hrefParts "versions"
  let originsIndex := jsIndexOf hrefParts "origins"
  if componentsIndex = -1 ∨ versionsIndex = -1 then
    none
  else
    some
      { componentId := jsGetAt hrefParts (componentsIndex + 1)
        componentVersionId := jsGetAt hrefParts (versionsIndex + 1)
        originId :=
          if originsIndex ≠ -1 ∧ dependencyType = .TRANSITIVE then
            jsGetAt hrefParts (originsIndex + 1)
          else
            none }

/-- The `_meta?.links || []` access on a path node. -/
def PathNode.linksOf (node : PathNode) : List LinkObj :=
  (node._meta.bind MetaObj.links).getD []

/-- The relation-tag test used to locate the guidance link. -/
def guidanceLinkMatches (dependencyType : DependencyType) (link : LinkObj) : Bool :=
  match dependencyType with
  | .DIRECT => link.rel = "upgrade-guidance"
  | .TRANSITIVE => link.rel = "transitive-upgrade-guidance"

/-- `extractComponentIdsFromPath` (utils lines 71-94).  The second-to-last
node access `path[path.length - 2]` is in bounds whenever the length guard
passes; the unreachable out-of-bounds case returns `none`. -/
def extractComponentIdsFromPath (pathItem : DependencyPathItem)
    (dependencyType : DependencyType) : Option ExtractedIds :=
  match pathItem.path with
  | none => none
  | some path =>
      if path.length ≤ 1 then none
      else
        match path.get? (path.length - 2) with
        | none => none
        | some pathNode =>
            let links := pathNode.linksOf
            match links.find? (guidanceLinkMatches dependencyType) with
            | none => none
            | some guidanceLink =>
                -- `if (!guidanceLink?.href) return null;` — href must be truthy
                if jsTruthy guidanceLink.href = false then none
                else
                  match guidanceLink.href with
                  | none => none
                  | some href => parseComponentIdsFromHref href dependencyType

/-- `generateComparisonRecommendation` (utils lines 130-143). -/
def generateComparisonRecommendation (shortTerm longTerm : UpgradeTermGuidance) : String :=
  let shortTermVulns := getTotalVulnerabilities shortTerm.vulnerabilityRisk
  let longTermVulns := getTotalVulnerabilities longTerm.vulnerabilityRisk
  if longTermVulns < shortTermVulns then
    "Recommended: Use the long-term version (" ++ jsTemplate longTerm.versionName ++
      ") as it has fewer vulnerabilities."
  else if shortTermVulns = 0 then
    "Recommended: Use the short-term version (" ++ jsTemplate shortTerm.versionName ++
      ") as it has no known vulnerabilities."
  else
    "Both versions have vulnerabilities. Consider the trade-offs between version compatibility and security."

/-! ### Output model: the JSON value built by the pipeline

The response object has a fixed finite shape, so it is modelled by plain
structures; `render` models `JSON.stringify(result, null, 2)` (field order
is insertion order, `undefined`-valued fields are dropped).  Whitespace and
indentation of the stringification are abstracted to a single compact
form — no claim depends on them, only on equality/shape of outputs. -/

/-- Quote a string as a JSON string literal.  None of the strings the
pipeline emits contain characters that `JSON.stringify` would escape. -/
def jsonQuote (s : String) : String := "\"" ++ s ++ "\""

/-- Render one object field holding a string, dropping it when the value is
`undefined`. -/
def jsonStrField (k : String) (v : Option String) : List String :=
  match v with
  | some s => [jsonQuote k ++ ": " ++ jsonQuote s]
  | none => []

/-- Render one object field holding an opaque numeric value (carried as its
rendered form), dropping it when `undefined`. -/
def jsonRawField (k : String) (v : Option String) : List String :=
  match v with
  | some s => [jsonQuote k ++ ": " ++ s]
  | none => []

/-- Assemble an object from its (already rendered, `undefined`-dropped)
fields. -/
def jsonObj (fields : List String) : String :=
  "\x7b" ++ String.intercalate ", " fields ++ "\x7d"

/-- Render the severity-count object. -/
def VulnerabilityRiskCounts.render (r : VulnerabilityRiskCounts) : String :=
  jsonObj
    [jsonQuote "critical" ++ ": " ++ toString r.critical,
     jsonQuote "high" ++ ": " ++ toString r.high,
     jsonQuote "medium" ++ ": " ++ toString r.medium,
     jsonQuote "low" ++ ": " ++ toString r.low]

/-- Render the `cvss3` sub-object. -/
def Cvss3Data.render (c : Cvss3Data) : String :=
  jsonObj
    (jsonRawField "baseScore" c.baseScore ++
     jsonStrField "severity" c.severity ++
     jsonStrField "vector" c.vector)

/-- The `vulnerability` block of the response: either the reshaped details
payload or the could-not-fetch placeholder. -/
inductive VulnerabilityBlock where
  | details (name : Option String) (severity : String) (baseScore : Option String)
      (description : String) (cvss3 : Option Cvss3Data)
      (remediationStatus : Option String) (cweId : Option String)
  | fallback (name : String) (note : String)
deriving DecidableEq

/-- Render the `vulnerability` block. -/
def VulnerabilityBlock.render : VulnerabilityBlock → String
  | .details name severity baseScore description cvss3 remediationStatus cweId =>
      jsonObj
        (jsonStrField "name" name ++
         jsonStrField "severity" (some severity) ++
         jsonRawField "baseScore" baseScore ++
         jsonStrField "description" (some description) ++
         (match cvss3 with
          | some c => [jsonQuote "cvss3" ++ ": " ++ c.render]
          | none => []) ++
         jsonStrField "remediationStatus" remediationStatus ++
         jsonStrField "cweId" cweId)
  | .fallback name note =>
      jsonObj (jsonStrField "name" (some name) ++ jsonStrField "note" (some note))

/-- The `component` block of the response. -/
structure ComponentBlock where
  name : Option String
  currentVersion : Option String
  dependencyType : DependencyType
  originId : Option String
deriving DecidableEq

/-- Render the `component` block. -/
def ComponentBlock.render (c : ComponentBlock) : String :=
  jsonObj
    (jsonStrField "name" c.name ++
     jsonStrField "currentVersion" c.currentVersion ++
     jsonStrField "dependencyType" (some c.dependencyType.render) ++
     jsonStrField "originId" c.originId)

/-- One horizon of the `fixGuidance` block: recommendation data, or the
`available: false` placeholder. -/
inductive HorizonBlock where
  | available (recommendedVersion : Option String)
      (vulnerabilitiesRemaining : VulnerabilityRiskCounts)
      (riskReduction : String) (originId : Option String)
  | unavailable (message : String)
deriving DecidableEq

/-- Render one horizon of the `fixGuidance` block. -/
def HorizonBlock.render : HorizonBlock → String
  | .available recommendedVersion vulnerabilitiesRemaining riskReduction originId =>
      jsonObj
        (jsonStrField "recommendedVersion" recommendedVersion ++
         [jsonQuote "vulnerabilitiesRemaining" ++ ": " ++ vulnerabilitiesRemaining.render] ++
         jsonStrField "riskReduction" (some riskReduction) ++
         jsonStrField "originId" originId)
  | .unavailable message =>
      jsonObj
        [jsonQuote "available" ++ ": false",
         jsonQuote "message" ++ ": " ++ jsonQuote message]

/-- The `fixGuidance` block. -/
structure FixGuidanceBlock where
  shortTerm : HorizonBlock
  longTerm : HorizonBlock
deriving DecidableEq

/-- Render the `fixGuidance` block. -/
def FixGuidanceBlock.render (f : FixGuidanceBlock) : String :=
  jsonObj
    [jsonQuote "shortTerm" ++ ": " ++ f.shortTerm.render,
     jsonQuote "longTerm" ++ ": " ++ f.longTerm.render]

/-- The whole response object.  `recommendation` is `none` when the field is
never assigned (then `JSON.stringify` omits it). -/
structure FixGuidanceResult where
  vulnerability : VulnerabilityBlock
  component : ComponentBlock
  fixGuidance : FixGuidanceBlock
  actionSteps : List String
  recommendation : Option String
deriving DecidableEq

/-- Render the whole response (the model of `JSON.stringify(result, null, 2)`). -/
def FixGuidanceResult.render (r : FixGuidanceResult) : String :=
  jsonObj
    ([jsonQuote "vulnerability" ++ ": " ++ r.vulnerability.render,
      jsonQuote "component" ++ ": " ++ r.component.render,
      jsonQuote "fixGuidance" ++ ": " ++ r.fixGuidance.render,
      jsonQuote "actionSteps" ++ ": " ++
        ("[" ++ String.intercalate ", " (r.actionSteps.map jsonQuote) ++ "]")] ++
     jsonStrField "recommendation" r.recommendation)

/-- The description expression shared by both pipelines:
`details.description?.substring(0, 200) + (details.description &&
details.description.length > 200 ? "..." : "")`.  When `description` is
`undefined`, JS evaluates `undefined + ""` to the literal string
`"undefined"`. -/
def jsDescription (description : Option String) : String :=
  match description with
  | some s => s.take 200 ++ (if s.length > 200 then "..." else "")
  | none => "undefined"

/-! ### The refactored pipeline (src/src/tools/fix-guidance.ts) -/

namespace FixGuidance

/-- The analysis record assembled by `analyzeDependencyType`
(fix-guidance.ts lines 25-30).  The identifier fields are `Option String`
because extraction can produce runtime-`undefined` values. -/
structure DependencyAnalysis where
  dependencyType : DependencyType
  guidanceComponentId : Option String
  guidanceComponentVersionId : Option String
  guidanceOriginId : Option String
deriving DecidableEq

/-- The ordered list of required fields (fix-guidance.ts lines 75-82). -/
def requiredFields : List String :=
  ["projectId", "projectVersionId", "componentId", "componentVersionId",
   "vulnerabilityId", "originId"]

/-- Dynamic field access `params[field]` used by the validation loop. -/
def paramField (params : GetVulnerabilityFixGuidanceParams) (field : String) : String :=
  match field with
  | "projectId" => params.projectId
  | "projectVersionId" => params.projectVersionId
  | "componentId" => params.componentId
  | "componentVersionId" => params.componentVersionId
  | "vulnerabilityId" => params.vulnerabilityId
  | "originId" => params.originId
  | _ => ""

/-- `validateParameters` (fix-guidance.ts lines 74-89): the loop throws a
plain `Error` at the first missing/blank field; the thrown value is
returned here (`none` = no throw). -/
def validateParameters (params : GetVulnerabilityFixGuidanceParams) : Option JsError :=
  (requiredFields.find? (fun field => jsBlank (paramField params field))).map
    (fun field => .error (field ++ " is required"))

/-- `fetchVulnerabilityContext` (fix-guidance.ts lines 95-110): returns
`undefined` when the fetch fails. -/
def fetchVulnerabilityContext (client : BlackDuckClient)
    (params : GetVulnerabilityFixGuidanceParams) : Option VulnerabilityDetails :=
  match client.getVulnerabilityRemediation params.projectId params.projectVersionId
      params.componentId params.componentVersionId params.vulnerabilityId with
  | .ok details => some details
  | .error _ => none

/-- `analyzeDependencyType` (fix-guidance.ts lines 115-154). -/
def analyzeDependencyType (client : BlackDuckClient)
    (params : GetVulnerabilityFixGuidanceParams) : DependencyAnalysis :=
  let fallback : DependencyAnalysis :=
    ⟨.DIRECT, some params.componentId, some params.componentVersionId, some params.originId⟩
  match client.getDependencyPaths params.projectId params.projectVersionId params.originId with
  | .error _ => fallback
  | .ok dependencyPaths =>
      match dependencyPaths.items with
      | some (firstItem :: _) =>
          let dependencyType := firstItem.type
          match extractComponentIdsFromPath firstItem dependencyType with
          | some extractedIds =>
              { dependencyType
                guidanceComponentId := extractedIds.componentId
                guidanceComponentVersionId := extractedIds.componentVersionId
                guidanceOriginId :=
                  -- `if (extractedIds.originId)` — truthiness guard
                  if jsTruthy extractedIds.originId then extractedIds.originId
                  else some params.originId }
          | none =>
              ⟨dependencyType, some params.componentId, some params.componentVersionId,
               some params.originId⟩
      | _ => fallback

/-- `fetchUpgradeGuidance` (fix-guidance.ts lines 160-175). -/
def fetchUpgradeGuidance (client : BlackDuckClient) (dependencyType : DependencyType)
    (componentId componentVersionId originId : Option String) :
    Except JsError UpgradeGuidance :=
  match dependencyType with
  | .DIRECT => client.getUpgradeGuidance componentId componentVersionId
  | .TRANSITIVE =>
      client.getTransitiveUpgradeGuidance componentId componentVersionId originId

/-- `buildVulnerabilityInfo` (fix-guidance.ts lines 200-227). -/
def buildVulnerabilityInfo (vulnerabilityId : String)
    (vulnerabilityDetails : Option VulnerabilityDetails) : VulnerabilityBlock :=
  match vulnerabilityDetails with
  | none => .fallback vulnerabilityId "Could not fetch vulnerability details"
  | some v =>
      .details v.vulnerabilityName (jsOr v.severity "UNSPECIFIED") v.baseScore
        (jsDescription v.description) v.cvss3 v.remediationStatus v.cweId

/-- `buildComponentInfo` (fix-guidance.ts lines 232-239). -/
def buildComponentInfo (upgradeGuidance : UpgradeGuidance)
    (dependencyType : DependencyType) : ComponentBlock :=
  ⟨upgradeGuidance.componentName, upgradeGuidance.versionName, dependencyType,
   upgradeGuidance.originExternalId⟩

/-- `buildFixGuidanceSection` (fix-guidance.ts lines 244-280). -/
def buildFixGuidanceSection (upgradeGuidance : UpgradeGuidance) : FixGuidanceBlock :=
  let shortTerm :=
    match upgradeGuidance.shortTerm with
    | some st =>
        HorizonBlock.available st.versionName st.vulnerabilityRisk
          (calculateRiskReduction st.vulnerabilityRisk) st.originExternalId
    | none => HorizonBlock.unavailable "No short-term fix available"
  let longTerm :=
    match upgradeGuidance.longTerm with
    | some lt =>
        HorizonBlock.available lt.versionName lt.vulnerabilityRisk
          (calculateRiskReduction lt.vulnerabilityRisk) lt.originExternalId
    | none => HorizonBlock.unavailable "No long-term fix available"
  ⟨shortTerm, longTerm⟩

/-- `generateNoFixActionSteps` (fix-guidance.ts lines 318-328). -/
def generateNoFixActionSteps : List String :=
  ["This vulnerability is NOT FIXABLE by upgrading the component.",
   "No short-term or long-term fix is available from the component maintainers.",
   "Consider these alternative remediation strategies:",
   "  - Apply security patches or workarounds if available",
   "  - Implement additional security controls to mitigate the risk",
   "  - Consider replacing the component with a secure alternative",
   "  - Accept the risk if it\x27s deemed acceptable for your use case"]

/-- `generateDirectDependencyActionSteps` (fix-guidance.ts lines 333-357). -/
def generateDirectDependencyActionSteps (upgradeGuidance : UpgradeGuidance)
    (hasShortTermFix hasLongTermFix : Bool) : List String :=
  jsFilterBoolean
    [some "Update your dependency to one of the recommended versions:",
     (match upgradeGuidance.shortTerm with
      | some st =>
          some ("  - Short-term: " ++ jsTemplate st.versionName ++ " (" ++
            toString (getTotalVulnerabilities st.vulnerabilityRisk) ++
            " vulnerabilities remaining)")
      | none =>
          if hasShortTermFix = false then some "  - Short-term: No fix available"
          else none),
     (match upgradeGuidance.longTerm with
      | some lt =>
          some ("  - Long-term: " ++ jsTemplate lt.versionName ++ " (" ++
            toString (getTotalVulnerabilities lt.vulnerabilityRisk) ++
            " vulnerabilities remaining)")
      | none =>
          if hasLongTermFix = false then some "  - Long-term: No fix available"
          else none),
     some "Update your package manager configuration (e.g., package.json, pom.xml, etc.)",
     some "Run your package manager\x27s install/update command",
     some "Test your application to ensure compatibility",
     some "Scan again with Black Duck to verify the vulnerability is resolved"]

/-- `generateTransitiveDependencyActionSteps` (fix-guidance.ts lines 362-387). -/
def generateTransitiveDependencyActionSteps (upgradeGuidance : UpgradeGuidance)
    (hasShortTermFix hasLongTermFix : Bool) : List String :=
  jsFilterBoolean
    [some "This is a TRANSITIVE dependency. To fix:",
     some "Update the parent/direct dependency that includes this component:",
     (match upgradeGuidance.shortTerm with
      | some st =>
          some ("  - Short-term parent version: Check which direct dependency needs updating to get " ++
            jsTemplate st.versionName)
      | none =>
          if hasShortTermFix = false then some "  - Short-term: No fix available"
          else none),
     (match upgradeGuidance.longTerm with
      | some lt =>
          some ("  - Long-term parent version: Check which direct dependency needs updating to get " ++
            jsTemplate lt.versionName)
      | none =>
          if hasLongTermFix = false then some "  - Long-term: No fix available"
          else none),
     some "The transitive component will be automatically upgraded when you update the parent",
     some "Run your package manager\x27s install/update command",
     some "Test your application to ensure compatibility",
     some "Scan again with Black Duck to verify the vulnerability is resolved"]

/-- `generateActionSteps` (fix-guidance.ts lines 286-313). -/
def generateActionSteps (dependencyType : DependencyType)
    (upgradeGuidance : UpgradeGuidance) (fixAvailability : FixAvailability) :
    List String :=
  if fixAvailability.hasAnyFix = false then
    generateNoFixActionSteps
  else
    match dependencyType with
    | .DIRECT =>
        generateDirectDependencyActionSteps upgradeGuidance
          fixAvailability.hasShortTermFix fixAvailability.hasLongTermFix
    | .TRANSITIVE =>
        generateTransitiveDependencyActionSteps upgradeGuidance
          fixAvailability.hasShortTermFix fixAvailability.hasLongTermFix

/-- `generateRecommendation` (fix-guidance.ts lines 392-422). -/
def generateRecommendation (upgradeGuidance : UpgradeGuidance)
    (fixAvailability : FixAvailability) : String :=
  if fixAvailability.hasAnyFix = false then
    "This vulnerability cannot be fixed by upgrading. Consider alternative remediation strategies such as applying security patches, implementing mitigating controls, or replacing the component."
  else
    match upgradeGuidance.shortTerm, upgradeGuidance.longTerm with
    | some shortTerm, some longTerm => generateComparisonRecommendation shortTerm longTerm
    | some shortTerm, none =>
        "Only short-term fix available. Upgrade to " ++ jsTemplate shortTerm.versionName ++ "."
    | none, some longTerm =>
        "Only long-term fix available. Upgrade to " ++ jsTemplate longTerm.versionName ++ "."
    | none, none => ""

/-- `buildResponse` (fix-guidance.ts lines 180-195). -/
def buildResponse (vulnerabilityId : String)
    (vulnerabilityDetails : Option VulnerabilityDetails)
    (dependencyType : DependencyType) (upgradeGuidance : UpgradeGuidance) :
    FixGuidanceResult :=
  let fixAvailability := getFixAvailability upgradeGuidance
  { vulnerability := buildVulnerabilityInfo vulnerabilityId vulnerabilityDetails
    component := buildComponentInfo upgradeGuidance dependencyType
    fixGuidance := buildFixGuidanceSection upgradeGuidance
    actionSteps := generateActionSteps dependencyType upgradeGuidance fixAvailability
    recommendation := some (generateRecommendation upgradeGuidance fixAvailability) }

/-- `getVulnerabilityFixGuidance` (fix-guidance.ts lines 36-69): the whole
pipeline, with the surrounding `try`/`catch` routing every thrown value
through `formatErrorForMCP`. -/
def getVulnerabilityFixGuidance (client : BlackDuckClient)
    (params : GetVulnerabilityFixGuidanceParams) : String :=
  match validateParameters params with
  | some e => formatErrorForMCP e
  | none =>
      let vulnerabilityDetails := fetchVulnerabilityContext client params
      let analysis := analyzeDependencyType client params
      match fetchUpgradeGuidance client analysis.dependencyType
          analysis.guidanceComponentId analysis.guidanceComponentVersionId
          analysis.guidanceOriginId with
      | .error e => formatErrorForMCP e
      | .ok upgradeGuidance =>
          (buildResponse params.vulnerabilityId vulnerabilityDetails
            analysis.dependencyType upgradeGuidance).render

end FixGuidance

/-! ### The older monolithic pipeline (src/src/tools/remediation.ts, appended
`getVulnerabilityFixGuidance`, lines 141-455) -/

namespace Remediation

/-- `getTotalVulnerabilities` (remediation.ts lines 453-455, local copy). -/
def getTotalVulnerabilities (risks : VulnerabilityRiskCounts) : Nat :=
  risks.critical + risks.high + risks.medium + risks.low

/-- `calculateRiskReduction` (remediation.ts lines 426-448, local copy). -/
def calculateRiskReduction (remainingRisks : VulnerabilityRiskCounts) : String :=
  let total := getTotalVulnerabilities remainingRisks
  if total = 0 then
    "Eliminates all known vulnerabilities"
  else
    let criticalAndHigh := remainingRisks.critical + remainingRisks.high
    if criticalAndHigh = 0 then
      "Eliminates all critical and high severity vulnerabilities (" ++
        toString total ++ " low/medium remain)"
    else
      let parts : List String :=
        (if remainingRisks.critical > 0 then [toString remainingRisks.critical ++ " critical"] else []) ++
        (if remainingRisks.high > 0 then [toString remainingRisks.high ++ " high"] else []) ++
        (if remainingRisks.medium > 0 then [toString remainingRisks.medium ++ " medium"] else []) ++
        (if remainingRisks.low > 0 then [toString remainingRisks.low ++ " low"] else [])
      toString total ++ " vulnerabilities remain: " ++ String.intercalate ", " parts

/-- State of the local variables `dependencyType`, `guidanceComponentId`,
`guidanceComponentVersionId`, `guidanceOriginId` after Step 2 of the
monolith (remediation.ts lines 189-245).  Unlike the refactored utility,
the inline parse assigns `guidanceOriginId = hrefParts[originsIndex + 1]`
unconditionally (no truthiness guard) when `origins` is present and the
classification is TRANSITIVE. -/
def resolveDependencyAnalysis (client : BlackDuckClient)
    (params : GetVulnerabilityFixGuidanceParams) : FixGuidance.DependencyAnalysis :=
  let fallback : FixGuidance.DependencyAnalysis :=
    ⟨.DIRECT, some params.componentId, some params.componentVersionId, some params.originId⟩
  match client.getDependencyPaths params.projectId params.projectVersionId params.originId with
  | .error _ => fallback
  | .ok dependencyPaths =>
      match dependencyPaths.items with
      | some (firstItem :: _) =>
          let dependencyType := firstItem.type
          let keepIds : FixGuidance.DependencyAnalysis :=
            ⟨dependencyType, some params.componentId, some params.componentVersionId,
             some params.originId⟩
          match firstItem.path with
          | none => keepIds
          | some path =>
              if path.length ≤ 1 then keepIds
              else
                match path.get? (path.length - 2) with
                | none => keepIds
                | some pathNode =>
                    let links := pathNode.linksOf
                    match links.find? (guidanceLinkMatches dependencyType) with
                    | none => keepIds
                    | some guidanceLink =>
                        -- `if (guidanceLink?.href)` — truthiness
                        if jsTruthy guidanceLink.href = false then keepIds
                        else
                          match guidanceLink.href with
                          | none => keepIds
                          | some href =>
                              let hrefParts := jsSplit href '/'
                              let componentsIndex := jsIndexOf hrefParts "components"
                              let versionsIndex := jsIndexOf hrefParts "versions"
                              let originsIndex := jsIndexOf hrefParts "origins"
                              if componentsIndex ≠ -1 ∧ versionsIndex ≠ -1 then
                                { dependencyType
                                  guidanceComponentId := jsGetAt hrefParts (componentsIndex + 1)
                                  guidanceComponentVersionId := jsGetAt hrefParts (versionsIndex + 1)
                                  guidanceOriginId :=
                                    if originsIndex ≠ -1 ∧ dependencyType = .TRANSITIVE then
                                      jsGetAt hrefParts (originsIndex + 1)
                                    else some params.originId }
                              else keepIds
      | _ => fallback

/-- `getVulnerabilityFixGuidance` (remediation.ts lines 141-421): the whole
monolithic pipeline. -/
def getVulnerabilityFixGuidance (client : BlackDuckClient)
    (params : GetVulnerabilityFixGuidanceParams) : String :=
  if jsBlank params.projectId then "Error: projectId is required"
  else if jsBlank params.projectVersionId then "Error: projectVersionId is required"
  else if jsBlank params.componentId then "Error: componentId is required"
  else if jsBlank params.componentVersionId then "Error: componentVersionId is required"
  else if jsBlank params.vulnerabilityId then "Error: vulnerabilityId is required"
  else if jsBlank params.originId then "Error: originId is required"
  else
    -- Step 1 (lines 174-187): context fetch, failures swallowed
    let vulnerabilityDetails : Option VulnerabilityDetails :=
      match client.getVulnerabilityRemediation params.projectId params.projectVersionId
          params.componentId params.componentVersionId params.vulnerabilityId with
      | .ok details => some details
      | .error _ => none
    -- Step 2 (lines 189-245)
    let analysis := resolveDependencyAnalysis client params
    -- Step 3 (lines 247-264): guidance fetch, failure returns formatted error
    match
      (match analysis.dependencyType with
       | .DIRECT =>
           client.getUpgradeGuidance analysis.guidanceComponentId
             analysis.guidanceComponentVersionId
       | .TRANSITIVE =>
           client.getTransitiveUpgradeGuidance analysis.guidanceComponentId
             analysis.guidanceComponentVersionId analysis.guidanceOriginId) with
    | .error e => formatErrorForMCP e
    | .ok upgradeGuidance =>
        -- Step 4 (lines 266-417): build the response object
        let vulnerability : VulnerabilityBlock :=
          match vulnerabilityDetails with
          | some v =>
              .details v.vulnerabilityName (jsOr v.severity "UNSPECIFIED") v.baseScore
                (jsDescription v.description) v.cvss3 v.remediationStatus v.cweId
          | none => .fallback params.vulnerabilityId "Could not fetch vulnerability details"
        let component : ComponentBlock :=
          ⟨upgradeGuidance.componentName, upgradeGuidance.versionName,
           analysis.dependencyType, upgradeGuidance.originExternalId⟩
        let shortTermBlock : HorizonBlock :=
          match upgradeGuidance.shortTerm with
          | some st =>
              .available st.versionName st.vulnerabilityRisk
                (calculateRiskReduction st.vulnerabilityRisk) st.originExternalId
          | none => .unavailable "No short-term fix available"
        let longTermBlock : HorizonBlock :=
          match upgradeGuidance.longTerm with
          | some lt =>
              .available lt.versionName lt.vulnerabilityRisk
                (calculateRiskReduction lt.vulnerabilityRisk) lt.originExternalId
          | none => .unavailable "No long-term fix available"
        let hasShortTermFix := upgradeGuidance.shortTerm.isSome
        let hasLongTermFix := upgradeGuidance.longTerm.isSome
        let hasAnyFix := hasShortTermFix || hasLongTermFix
        let actionSteps : List String :=
          if hasAnyFix = false then
            ["This vulnerability is NOT FIXABLE by upgrading the component.",
             "No short-term or long-term fix is available from the component maintainers.",
             "Consider these alternative remediation strategies:",
             "  - Apply security patches or workarounds if available",
             "  - Implement additional security controls to mitigate the risk",
             "  - Consider replacing the component with a secure alternative",
             "  - Accept the risk if it\x27s deemed acceptable for your use case"]
          else
            match analysis.dependencyType with
            | .DIRECT =>
                jsFilterBoolean
                  [(if hasAnyFix then
                      some "Update your dependency to one of the recommended versions:"
                    else none),
                   (match upgradeGuidance.shortTerm with
                    | some st =>
                        some ("  - Short-term: " ++ jsTemplate st.versionName ++ " (" ++
                          toString (getTotalVulnerabilities st.vulnerabilityRisk) ++
                          " vulnerabilities remaining)")
                    | none =>
                        if hasShortTermFix = false then
                          some "  - Short-term: No fix available"
                        else none),
                   (match upgradeGuidance.longTerm with
                    | some lt =>
                        some ("  - Long-term: " ++ jsTemplate lt.versionName ++ " (" ++
                          toString (getTotalVulnerabilities lt.vulnerabilityRisk) ++
                          " vulnerabilities remaining)")
                    | none =>
                        if hasLongTermFix = false then
                          some "  - Long-term: No fix available"
                        else none),
                   some "Update your package manager configuration (e.g., package.json, pom.xml, etc.)",
                   some "Run your package manager\x27s install/update command",
                   some "Test your application to ensure compatibility",
                   some "Scan again with Black Duck to verify the vulnerability is resolved"]
            | .TRANSITIVE =>
                jsFilterBoolean
                  [some "This is a TRANSITIVE dependency. To fix:",
                   some "Update the parent/direct dependency that includes this component:",
                   (match upgradeGuidance.shortTerm with
                    | some st =>
                        some ("  - Short-term parent version: Check which direct dependency needs updating to get " ++
                          jsTemplate st.versionName)
                    | none =>
                        if hasShortTermFix = false then
                          some "  - Short-term: No fix available"
                        else none),
                   (match upgradeGuidance.longTerm with
                    | some lt =>
                        some ("  - Long-term parent version: Check which direct dependency needs updating to get " ++
                          jsTemplate lt.versionName)
                    | none =>
                        if hasLongTermFix = false then
                          some "  - Long-term: No fix available"
                        else none),
                   some "The transitive component will be automatically upgraded when you update the parent",
                   some "Run your package manager\x27s install/update command",
                   some "Test your application to ensure compatibility",
                   some "Scan again with Black Duck to verify the vulnerability is resolved"]
        let recommendation : Option String :=
          if hasAnyFix = false then
            some "This vulnerability cannot be fixed by upgrading. Consider alternative remediation strategies such as applying security patches, implementing mitigating controls, or replacing the component."
          else
            match upgradeGuidance.shortTerm, upgradeGuidance.longTerm with
            | some st, some lt =>
                let shortTermVulns := getTotalVulnerabilities st.vulnerabilityRisk
                let longTermVulns := getTotalVulnerabilities lt.vulnerabilityRisk
                some
                  (if longTermVulns < shortTermVulns then
                    "Recommended: Use the long-term version (" ++ jsTemplate lt.versionName ++
                      ") as it has fewer vulnerabilities."
                  else if shortTermVulns = 0 then
                    "Recommended: Use the short-term version (" ++ jsTemplate st.versionName ++
                      ") as it has no known vulnerabilities."
                  else
                    "Both versions have vulnerabilities. Consider the trade-offs between version compatibility and security.")
            | some st, none =>
                some ("Only short-term fix available. Upgrade to " ++
                  jsTemplate st.versionName ++ ".")
            | none, some lt =>
                some ("Only long-term fix available. Upgrade to " ++
                  jsTemplate lt.versionName ++ ".")
            | none, none => none
        FixGuidanceResult.render
          ⟨vulnerability, component, ⟨shortTermBlock, longTermBlock⟩, actionSteps,
           recommendation⟩

end Remediation

/-! ### Shared helper lemmas -/

/-- A string with a non-empty prefix is non-empty. -/
theorem str_append_ne_empty (a b : String) (h : a ≠ "") : a ++ b ≠ "" := by
  intro hc
  apply h
  have hd := congrArg String.data hc
  rw [String.data_append] at hd
  have ha : a.data = [] := (List.append_eq_nil.mp hd).1
  cases a
  simp_all

/-- `filter(Boolean)` keeps a truthy (non-empty string) head. -/
theorem jsFilterBoolean_cons_some (s : String) (h : s ≠ "") (rest : List (Option String)) :
    jsFilterBoolean (some s :: rest) = s :: jsFilterBoolean rest := by
  simp [jsFilterBoolean, h]

/-- `filter(Boolean)` drops a `null`/`undefined` head. -/
theorem jsFilterBoolean_cons_none (rest : List (Option String)) :
    jsFilterBoolean (none :: rest) = jsFilterBoolean rest := by
  simp [jsFilterBoolean]

/-! ### C8 — risk-reduction description -/

/-- The claim's description of the third branch: the non-zero severity
buckets in the fixed order critical, high, medium, low. -/
def severityBuckets (r : VulnerabilityRiskCounts) : List (Nat × String) :=
  [(r.critical, "critical"), (r.high, "high"), (r.medium, "medium"), (r.low, "low")]

/-- The risk-reduction description exactly as the claim words it (written
from the spec, to be compared with `calculateRiskReduction` from the
source). -/
def riskReductionSpec (r : VulnerabilityRiskCounts) : String :=
  let total := r.critical + r.high + r.medium + r.low
  if total = 0 then
    "Eliminates all known vulnerabilities"
  else if r.critical = 0 ∧ r.high = 0 then
    "Eliminates all critical and high severity vulnerabilities (" ++
      toString total ++ " low/medium remain)"
  else
    toString total ++ " vulnerabilities remain: " ++
      String.intercalate ", "
        (((severityBuckets r).filter (fun b => b.1 ≠ 0)).map
          (fun b => toString b.1 ++ " " ++ b.2))

/-- C8: for every `VulnerabilityRiskCounts`, the source's
`calculateRiskReduction` produces exactly the description the claim
states: the all-clear sentence at total 0, the critical-and-high-clear
sentence when only low/medium remain, and otherwise the total followed by
the comma-joined non-zero buckets in the fixed order critical, high,
medium, low. -/
theorem C8_risk_reduction_description (r : VulnerabilityRiskCounts) :
    calculateRiskReduction r = riskReductionSpec r := by
  unfold calculateRiskReduction riskReductionSpec getTotalVulnerabilities severityBuckets
  by_cases h0 : r.critical + r.high + r.medium + r.low = 0
  · simp [h0]
  · simp only [h0, if_false]
    by_cases hch : r.critical + r.high = 0
    · have hc : r.critical = 0 := (Nat.add_eq_zero.mp hch).1
      have hh : r.high = 0 := (Nat.add_eq_zero.mp hch).2
      simp [hch, hc, hh]
    · have hne : ¬(r.critical = 0 ∧ r.high = 0) := by
        intro ⟨hc, hh⟩; exact hch (by omega)
      simp only [hch, if_false, hne]
      by_cases hc : r.critical = 0 <;> by_cases hh : r.high = 0 <;>
        by_cases hm : r.medium = 0 <;> by_cases hl : r.low = 0 <;>
        simp [hc, hh, hm, hl, Nat.pos_iff_ne_zero, String.append_assoc]

/-! ### C6 — identifier extraction on well-formed links -/

/-- C6: on a DIRECT link `.../components/C1/versions/V1/upgrade-guidance`
the extraction returns componentId "C1", componentVersionId "V1" and no
originId; on a TRANSITIVE link
`.../components/C1/versions/V1/origins/O1/transitive-upgrade-guidance` it
additionally returns originId "O1".  Stated both for the href parser and
for the path-level extraction applied to a two-node path whose
second-to-last node carries the matching link. -/
theorem C6_extract_identifiers :
    parseComponentIdsFromHref "/api/components/C1/versions/V1/upgrade-guidance"
        .DIRECT = some ⟨some "C1", some "V1", none⟩ ∧
    parseComponentIdsFromHref
        "/api/components/C1/versions/V1/origins/O1/transitive-upgrade-guidance"
        .TRANSITIVE = some ⟨some "C1", some "V1", some "O1"⟩ ∧
    extractComponentIdsFromPath
        ⟨.DIRECT,
         some [⟨some ⟨some [⟨"upgrade-guidance",
                  some "/api/components/C1/versions/V1/upgrade-guidance"⟩]⟩⟩,
               ⟨none⟩]⟩
        .DIRECT = some ⟨some "C1", some "V1", none⟩ ∧
    extractComponentIdsFromPath
        ⟨.TRANSITIVE,
         some [⟨some ⟨some [⟨"transitive-upgrade-guidance",
                  some "/api/components/C1/versions/V1/origins/O1/transitive-upgrade-guidance"⟩]⟩⟩,
               ⟨none⟩]⟩
        .TRANSITIVE = some ⟨some "C1", some "V1", some "O1"⟩ := by
  refine ⟨by decide, by decide, by decide, by decide⟩

/-! ### C7 — extraction returns absent on malformed input, never throws -/

/-- C7: the extraction utility is total (it is a plain function here, so it
cannot throw) and yields `none` whenever the path is absent or has at most
one node, or the second-to-last node has no link with the matching
relation tag, or the matching link's target path lacks the "components" or
"versions" segment. -/
theorem C7_extraction_absent_cases :
    (∀ (item : DependencyPathItem) (dt : DependencyType),
        item.path = none → extractComponentIdsFromPath item dt = none) ∧
    (∀ (item : DependencyPathItem) (dt : DependencyType) (path : List PathNode),
        item.path = some path → path.length ≤ 1 →
        extractComponentIdsFromPath item dt = none) ∧
    (∀ (item : DependencyPathItem) (dt : DependencyType) (path : List PathNode)
        (node : PathNode),
        item.path = some path → 1 < path.length →
        path.get? (path.length - 2) = some node →
        node.linksOf.find? (guidanceLinkMatches dt) = none →
        extractComponentIdsFromPath item dt = none) ∧
    (∀ (href : String) (dt : DependencyType),
        jsIndexOf (jsSplit href '/') "components" = -1 ∨
          jsIndexOf (jsSplit href '/') "versions" = -1 →
        parseComponentIdsFromHref href dt = none) := by
  refine ⟨?_, ?_, ?_, ?_⟩
  · intro item dt h
    unfold extractComponentIdsFromPath
    rw [h]
  · intro item dt path h hlen
    unfold extractComponentIdsFromPath
    rw [h]
    simp [hlen]
  · intro item dt path node h hlen hnode hfind
    unfold extractComponentIdsFromPath
    rw [h]
    simp only [hnode, hfind]
    simp [Nat.not_le.mpr hlen, hnode, hfind]
  · intro href dt h
    unfold parseComponentIdsFromHref
    simp [h]

/-- Witness for C7: each absent-result case evaluated at a concrete
malformed input. -/
theorem C7_extraction_absent_cases_witness :
    extractComponentIdsFromPath ⟨.DIRECT, none⟩ .DIRECT = none ∧
    extractComponentIdsFromPath ⟨.DIRECT, some [⟨none⟩]⟩ .DIRECT = none ∧
    extractComponentIdsFromPath ⟨.DIRECT, some [⟨some ⟨some []⟩⟩, ⟨none⟩]⟩ .DIRECT = none ∧
    parseComponentIdsFromHref "/api/nothing-here" .TRANSITIVE = none :=
  ⟨C7_extraction_absent_cases.1 _ .DIRECT rfl,
   C7_extraction_absent_cases.2.1 _ .DIRECT [⟨none⟩] rfl (by decide),
   C7_extraction_absent_cases.2.2.1 _ .DIRECT [⟨some ⟨some []⟩⟩, ⟨none⟩] ⟨some ⟨some []⟩⟩
     rfl (by decide) (by decide) (by decide),
   C7_extraction_absent_cases.2.2.2 "/api/nothing-here" .TRANSITIVE (by decide)⟩

/-! ### C1 — recommendation selection rule -/

/-- C1: with both horizons present the recommendation follows the rule
"strictly fewer total remaining at long-term → long-term by name;
otherwise short-term total zero → short-term by name; otherwise the
neutral trade-off sentence"; in particular short-term total 0 and
long-term total 2 yields the short-term-zero message; with exactly one
horizon present the recommendation names that horizon with no
comparison. -/
theorem C1_recommendation_rule :
    (∀ (g : UpgradeGuidance) (st lt : UpgradeTermGuidance),
        g.shortTerm = some st → g.longTerm = some lt →
        FixGuidance.generateRecommendation g (getFixAvailability g) =
          (if getTotalVulnerabilities lt.vulnerabilityRisk <
              getTotalVulnerabilities st.vulnerabilityRisk then
            "Recommended: Use the long-term version (" ++ jsTemplate lt.versionName ++
              ") as it has fewer vulnerabilities."
          else if getTotalVulnerabilities st.vulnerabilityRisk = 0 then
            "Recommended: Use the short-term version (" ++ jsTemplate st.versionName ++
              ") as it has no known vulnerabilities."
          else
            "Both versions have vulnerabilities. Consider the trade-offs between version compatibility and security.")) ∧
    (∀ (g : UpgradeGuidance) (st lt : UpgradeTermGuidance),
        g.shortTerm = some st → g.longTerm = some lt →
        getTotalVulnerabilities st.vulnerabilityRisk = 0 →
        getTotalVulnerabilities lt.vulnerabilityRisk = 2 →
        FixGuidance.generateRecommendation g (getFixAvailability g) =
          "Recommended: Use the short-term version (" ++ jsTemplate st.versionName ++
            ") as it has no known vulnerabilities.") ∧
    (∀ (g : UpgradeGuidance) (st : UpgradeTermGuidance),
        g.shortTerm = some st → g.longTerm = none →
        FixGuidance.generateRecommendation g (getFixAvailability g) =
          "Only short-term fix available. Upgrade to " ++ jsTemplate st.versionName ++ ".") ∧
    (∀ (g : UpgradeGuidance) (lt : UpgradeTermGuidance),
        g.shortTerm = none → g.longTerm = some lt →
        FixGuidance.generateRecommendation g (getFixAvailability g) =
          "Only long-term fix available. Upgrade to " ++ jsTemplate lt.versionName ++ ".") := by
  refine ⟨?_, ?_, ?_, ?_⟩
  · intro g st lt hst hlt
    simp [FixGuidance.generateRecommendation, getFixAvailability, hst, hlt,
      generateComparisonRecommendation]
  · intro g st lt hst hlt h0 h2
    simp [FixGuidance.generateRecommendation, getFixAvailability, hst, hlt,
      generateComparisonRecommendation, h0, h2]
  · intro g st hst hlt
    simp [FixGuidance.generateRecommendation, getFixAvailability, hst, hlt]
  · intro g lt hst hlt
    simp [FixGuidance.generateRecommendation, getFixAvailability, hst, hlt]

/-- Witness for C1: the rule evaluated on concrete guidance payloads,
including the short-term-total-0 / long-term-total-2 case from the spec's
test sketch. -/
theorem C1_recommendation_rule_witness :
    FixGuidance.generateRecommendation
        { componentName := none, versionName := none, originExternalId := none
          shortTerm := some ⟨some "1.2.0", ⟨0, 0, 0, 0⟩, none⟩
          longTerm := some ⟨some "2.0.0", ⟨0, 0, 1, 1⟩, none⟩ }
        (getFixAvailability
          { componentName := none, versionName := none, originExternalId := none
            shortTerm := some ⟨some "1.2.0", ⟨0, 0, 0, 0⟩, none⟩
            longTerm := some ⟨some "2.0.0", ⟨0, 0, 1, 1⟩, none⟩ }) =
      "Recommended: Use the short-term version (" ++ jsTemplate (some "1.2.0") ++
        ") as it has no known vulnerabilities." ∧
    FixGuidance.generateRecommendation
        { componentName := none, versionName := none, originExternalId := none
          shortTerm := some ⟨some "1.2.0", ⟨0, 1, 0, 0⟩, none⟩
          longTerm := none }
        (getFixAvailability
          { componentName := none, versionName := none, originExternalId := none
            shortTerm := some ⟨some "1.2.0", ⟨0, 1, 0, 0⟩, none⟩
            longTerm := none }) =
      "Only short-term fix available. Upgrade to " ++ jsTemplate (some "1.2.0") ++ "." ∧
    FixGuidance.generateRecommendation
        { componentName := none, versionName := none, originExternalId := none
          shortTerm := none
          longTerm := some ⟨some "2.0.0", ⟨1, 0, 0, 0⟩, none⟩ }
        (getFixAvailability
          { componentName := none, versionName := none, originExternalId := none
            shortTerm := none
            longTerm := some ⟨some "2.0.0", ⟨1, 0, 0, 0⟩, none⟩ }) =
      "Only long-term fix available. Upgrade to " ++ jsTemplate (some "2.0.0") ++ "." :=
  ⟨C1_recommendation_rule.2.1 _ _ _ rfl rfl (by decide) (by decide),
   C1_recommendation_rule.2.2.1 _ _ rfl rfl,
   C1_recommendation_rule.2.2.2 _ _ rfl rfl⟩

/-! ### C4 — per-horizon lines in actionSteps -/

/-- The rendered short-term line of the DIRECT branch is never empty. -/
theorem directShortTermLine_ne_empty (st : UpgradeTermGuidance) :
    ("  - Short-term: " ++ jsTemplate st.versionName ++ " (" ++
      toString (getTotalVulnerabilities st.vulnerabilityRisk) ++
      " vulnerabilities remaining)") ≠ "" := by
  repeat first | apply str_append_ne_empty | decide

/-- The rendered long-term line of the DIRECT branch is never empty. -/
theorem directLongTermLine_ne_empty (lt : UpgradeTermGuidance) :
    ("  - Long-term: " ++ jsTemplate lt.versionName ++ " (" ++
      toString (getTotalVulnerabilities lt.vulnerabilityRisk) ++
      " vulnerabilities remaining)") ≠ "" := by
  repeat first | apply str_append_ne_empty | decide

/-- The rendered short-term line of the TRANSITIVE branch is never empty. -/
theorem transShortTermLine_ne_empty (st : UpgradeTermGuidance) :
    ("  - Short-term parent version: Check which direct dependency needs updating to get " ++
      jsTemplate st.versionName) ≠ "" := by
  repeat first | apply str_append_ne_empty | decide

/-- The rendered long-term line of the TRANSITIVE branch is never empty. -/
theorem transLongTermLine_ne_empty (lt : UpgradeTermGuidance) :
    ("  - Long-term parent version: Check which direct dependency needs updating to get " ++
      jsTemplate lt.versionName) ≠ "" := by
  repeat first | apply str_append_ne_empty | decide

/-- Counterexample to C4: for a DIRECT guidance payload whose long-term
horizon is absent, the per-horizon line is NOT omitted — the placeholder
line "  - Long-term: No fix available" appears in the list, and the list
has the fixed length 7. -/
theorem C4_counterexample :
    "  - Long-term: No fix available" ∈
      FixGuidance.generateActionSteps .DIRECT
        { componentName := some "lib", versionName := some "1.0",
          originExternalId := none,
          shortTerm := some ⟨some "1.2", ⟨0, 0, 0, 0⟩, none⟩, longTerm := none }
        (getFixAvailability
          { componentName := some "lib", versionName := some "1.0",
            originExternalId := none,
            shortTerm := some ⟨some "1.2", ⟨0, 0, 0, 0⟩, none⟩, longTerm := none }) ∧
    (FixGuidance.generateActionSteps .DIRECT
        { componentName := some "lib", versionName := some "1.0",
          originExternalId := none,
          shortTerm := some ⟨some "1.2", ⟨0, 0, 0, 0⟩, none⟩, longTerm := none }
        (getFixAvailability
          { componentName := some "lib", versionName := some "1.0",
            originExternalId := none,
            shortTerm := some ⟨some "1.2", ⟨0, 0, 0, 0⟩, none⟩, longTerm := none })).length
      = 7 := by
  refine ⟨by decide, by decide⟩

/-- C4 as amended: when at least one horizon is present, a per-horizon line
for an ABSENT horizon is rendered as the placeholder
"  - <Horizon>: No fix available" (not omitted), and the list length is
fixed — 7 entries in the DIRECT branch, 8 in the TRANSITIVE branch —
independently of which horizons are present. -/
theorem C4_amended_action_steps (dt : DependencyType) (g : UpgradeGuidance)
    (hAny : (getFixAvailability g).hasAnyFix = true) :
    ((FixGuidance.generateActionSteps dt g (getFixAvailability g)).length =
      match dt with | .DIRECT => 7 | .TRANSITIVE => 8) ∧
    (g.shortTerm = none →
      "  - Short-term: No fix available" ∈
        FixGuidance.generateActionSteps dt g (getFixAvailability g)) ∧
    (g.longTerm = none →
      "  - Long-term: No fix available" ∈
        FixGuidance.generateActionSteps dt g (getFixAvailability g)) := by
  obtain ⟨cn, vn, oe, stO, ltO⟩ := g
  cases dt <;> cases stO <;> cases ltO <;>
    simp_all [FixGuidance.generateActionSteps, getFixAvailability,
      FixGuidance.generateDirectDependencyActionSteps,
      FixGuidance.generateTransitiveDependencyActionSteps,
      jsFilterBoolean, directShortTermLine_ne_empty, directLongTermLine_ne_empty,
      transShortTermLine_ne_empty, transLongTermLine_ne_empty]

/-- Witness for the amended C4: a TRANSITIVE payload with only the
long-term horizon present gets an 8-entry list containing the short-term
placeholder line. -/
theorem C4_amended_action_steps_witness :
    ((FixGuidance.generateActionSteps .TRANSITIVE
        { componentName := none, versionName := none, originExternalId := none,
          shortTerm := none, longTerm := some ⟨some "2.0", ⟨0, 0, 1, 0⟩, none⟩ }
        (getFixAvailability
          { componentName := none, versionName := none, originExternalId := none,
            shortTerm := none, longTerm := some ⟨some "2.0", ⟨0, 0, 1, 0⟩, none⟩ })).length
      = 8) ∧
    "  - Short-term: No fix available" ∈
      FixGuidance.generateActionSteps .TRANSITIVE
        { componentName := none, versionName := none, originExternalId := none,
          shortTerm := none, longTerm := some ⟨some "2.0", ⟨0, 0, 1, 0⟩, none⟩ }
        (getFixAvailability
          { componentName := none, versionName := none, originExternalId := none,
            shortTerm := none, longTerm := some ⟨some "2.0", ⟨0, 0, 1, 0⟩, none⟩ }) :=
  ⟨(C4_amended_action_steps .TRANSITIVE _ (by decide)).1,
   (C4_amended_action_steps .TRANSITIVE _ (by decide)).2.1 rfl⟩

/-! ### Concrete sample data shared by the witnesses -/

/-- A fully populated, well-formed parameter record. -/
def sampleParams : GetVulnerabilityFixGuidanceParams :=
  ⟨"P", "V", "C", "CV", "VU", "O"⟩

/-- A guidance payload with both horizons present. -/
def sampleGuidance : UpgradeGuidance :=
  { componentName := some "lib", versionName := some "1.0",
    originExternalId := some "npm:lib/1.0",
    shortTerm := some ⟨some "1.2", ⟨0, 0, 0, 0⟩, none⟩,
    longTerm := some ⟨some "2.0", ⟨0, 0, 1, 1⟩, none⟩ }

/-- A client whose dependency-path lookup throws and whose guidance
endpoints succeed. -/
def depsErrorClient : BlackDuckClient :=
  { getVulnerabilityRemediation := fun _ _ _ _ _ => .error (.error "ctx down")
    getDependencyPaths := fun _ _ _ => .error (.blackDuck "NetworkError" "paths down")
    getUpgradeGuidance := fun _ _ => .ok sampleGuidance
    getTransitiveUpgradeGuidance := fun _ _ _ => .ok sampleGuidance }

/-- A client whose dependency-path lookup succeeds with zero items. -/
def depsEmptyClient : BlackDuckClient :=
  { getVulnerabilityRemediation := fun _ _ _ _ _ => .error (.error "ctx down")
    getDependencyPaths := fun _ _ _ => .ok ⟨some []⟩
    getUpgradeGuidance := fun _ _ => .ok sampleGuidance
    getTransitiveUpgradeGuidance := fun _ _ _ => .ok sampleGuidance }

/-- A client whose guidance endpoints (both of them) throw. -/
def guidanceErrorClient : BlackDuckClient :=
  { getVulnerabilityRemediation := fun _ _ _ _ _ => .error (.error "ctx down")
    getDependencyPaths := fun _ _ _ => .ok ⟨some []⟩
    getUpgradeGuidance := fun _ _ => .error (.blackDuck "NetworkError" "guidance down")
    getTransitiveUpgradeGuidance := fun _ _ _ =>
      .error (.blackDuck "NetworkError" "guidance down") }

/-! ### C5 — parameter validation short-circuits -/

/-- C5: whenever some coordinate field is missing/blank (the ordered
field-list scan finds a blank field `f`), the pipeline returns exactly
"Error: &lt;f&gt; is required", and the outcome is independent of the client —
no collaborator behaviour can influence it, so no network call is
involved. -/
theorem C5_validation_short_circuit
    (p : GetVulnerabilityFixGuidanceParams) (c c' : BlackDuckClient) (f : String)
    (h : FixGuidance.requiredFields.find?
        (fun field => jsBlank (FixGuidance.paramField p field)) = some f) :
    FixGuidance.getVulnerabilityFixGuidance c p = "Error: " ++ (f ++ " is required") ∧
    FixGuidance.getVulnerabilityFixGuidance c p =
      FixGuidance.getVulnerabilityFixGuidance c' p := by
  constructor
  · simp [FixGuidance.getVulnerabilityFixGuidance, FixGuidance.validateParameters, h,
      formatErrorForMCP]
  · simp [FixGuidance.getVulnerabilityFixGuidance, FixGuidance.validateParameters, h]

/-- Witness for C5: an empty `projectId` and a whitespace-only
`projectVersionId` each produce their field-specific message, regardless
of the client. -/
theorem C5_validation_short_circuit_witness :
    FixGuidance.getVulnerabilityFixGuidance depsErrorClient ⟨"", "V", "C", "CV", "VU", "O"⟩ =
      "Error: " ++ ("projectId" ++ " is required") ∧
    FixGuidance.getVulnerabilityFixGuidance guidanceErrorClient ⟨"P", "   ", "C", "CV", "VU", "O"⟩ =
      "Error: " ++ ("projectVersionId" ++ " is required") ∧
    FixGuidance.getVulnerabilityFixGuidance depsErrorClient ⟨"", "V", "C", "CV", "VU", "O"⟩ =
      FixGuidance.getVulnerabilityFixGuidance guidanceErrorClient ⟨"", "V", "C", "CV", "VU", "O"⟩ :=
  ⟨(C5_validation_short_circuit ⟨"", "V", "C", "CV", "VU", "O"⟩ depsErrorClient
      depsErrorClient "projectId" (by decide)).1,
   (C5_validation_short_circuit ⟨"P", "   ", "C", "CV", "VU", "O"⟩ guidanceErrorClient
      guidanceErrorClient "projectVersionId" (by decide)).1,
   (C5_validation_short_circuit ⟨"", "V", "C", "CV", "VU", "O"⟩ depsErrorClient
      guidanceErrorClient "projectId" (by decide)).2⟩

/-! ### C2 — dependency-path failures degrade to DIRECT with caller ids -/

/-- C2: if the dependency-path lookup throws, or succeeds with zero items,
the analysis classifies DIRECT and keeps the caller-supplied
componentId/componentVersionId/originId verbatim; and under such a
failure the whole pipeline still renders the JSON success payload (built
with classification DIRECT and the caller ids) — the failure is never
propagated. -/
theorem C2_dependency_path_fallback :
    (∀ (c : BlackDuckClient) (p : GetVulnerabilityFixGuidanceParams) (e : JsError),
        c.getDependencyPaths p.projectId p.projectVersionId p.originId = .error e →
        FixGuidance.analyzeDependencyType c p =
          ⟨.DIRECT, some p.componentId, some p.componentVersionId, some p.originId⟩) ∧
    (∀ (c : BlackDuckClient) (p : GetVulnerabilityFixGuidanceParams)
        (dp : DependencyPaths),
        c.getDependencyPaths p.projectId p.projectVersionId p.originId = .ok dp →
        (dp.items = none ∨ dp.items = some []) →
        FixGuidance.analyzeDependencyType c p =
          ⟨.DIRECT, some p.componentId, some p.componentVersionId, some p.originId⟩) ∧
    (∀ (c : BlackDuckClient) (p : GetVulnerabilityFixGuidanceParams) (e : JsError)
        (g : UpgradeGuidance),
        FixGuidance.validateParameters p = none →
        c.getDependencyPaths p.projectId p.projectVersionId p.originId = .error e →
        c.getUpgradeGuidance (some p.componentId) (some p.componentVersionId) = .ok g →
        FixGuidance.getVulnerabilityFixGuidance c p =
          (FixGuidance.buildResponse p.vulnerabilityId
            (FixGuidance.fetchVulnerabilityContext c p) .DIRECT g).render) := by
  have h1 : ∀ (c : BlackDuckClient) (p : GetVulnerabilityFixGuidanceParams) (e : JsError),
      c.getDependencyPaths p.projectId p.projectVersionId p.originId = .error e →
      FixGuidance.analyzeDependencyType c p =
        ⟨.DIRECT, some p.componentId, some p.componentVersionId, some p.originId⟩ := by
    intro c p e h
    simp [FixGuidance.analyzeDependencyType, h]
  refine ⟨h1, ?_, ?_⟩
  · intro c p dp h hitems
    rcases hitems with hi | hi <;> simp [FixGuidance.analyzeDependencyType, h, hi]
  · intro c p e g hval hdep hok
    have ha := h1 c p e hdep
    simp [FixGuidance.getVulnerabilityFixGuidance, hval, ha,
      FixGuidance.fetchUpgradeGuidance, hok]

/-- Witness for C2: the error-throwing and the zero-items clients both
yield DIRECT with the caller ids, and the throwing client still produces
the rendered success payload. -/
theorem C2_dependency_path_fallback_witness :
    FixGuidance.analyzeDependencyType depsErrorClient sampleParams =
      ⟨.DIRECT, some "C", some "CV", some "O"⟩ ∧
    FixGuidance.analyzeDependencyType depsEmptyClient sampleParams =
      ⟨.DIRECT, some "C", some "CV", some "O"⟩ ∧
    FixGuidance.getVulnerabilityFixGuidance depsErrorClient sampleParams =
      (FixGuidance.buildResponse "VU"
        (FixGuidance.fetchVulnerabilityContext depsErrorClient sampleParams)
        .DIRECT sampleGuidance).render :=
  ⟨C2_dependency_path_fallback.1 depsErrorClient sampleParams _ rfl,
   C2_dependency_path_fallback.2.1 depsEmptyClient sampleParams ⟨some []⟩ rfl (Or.inr rfl),
   C2_dependency_path_fallback.2.2 depsErrorClient sampleParams
     (.blackDuck "NetworkError" "paths down") sampleGuidance (by decide) rfl rfl⟩

/-! ### C3 — guidance-fetch failure is the sole hard error, output always a
string -/

/-- C3: when the guidance fetch (whichever endpoint the classification
selects) throws `e`, the pipeline's output is exactly the formatted error
string "&lt;ErrorKind&gt;: &lt;message&gt;" — not a partial JSON payload; and for
every client and parameters whatsoever, the output is either a rendered
JSON success payload or a `formatErrorForMCP`-formatted string (never an
unhandled fault). -/
theorem C3_guidance_error_formatting :
    (∀ (c : BlackDuckClient) (p : GetVulnerabilityFixGuidanceParams) (e : JsError),
        FixGuidance.validateParameters p = none →
        (∀ a b, c.getUpgradeGuidance a b = .error e) →
        (∀ a b o, c.getTransitiveUpgradeGuidance a b o = .error e) →
        FixGuidance.getVulnerabilityFixGuidance c p = formatErrorForMCP e ∧
          formatErrorForMCP e = e.kind ++ ": " ++ e.payload) ∧
    (∀ (c : BlackDuckClient) (p : GetVulnerabilityFixGuidanceParams),
        (∃ r : FixGuidanceResult,
            FixGuidance.getVulnerabilityFixGuidance c p = r.render) ∨
        (∃ e : JsError,
            FixGuidance.getVulnerabilityFixGuidance c p = formatErrorForMCP e)) := by
  constructor
  · intro c p e hval hdir htrans
    constructor
    · simp only [FixGuidance.getVulnerabilityFixGuidance, hval,
        FixGuidance.fetchUpgradeGuidance]
      cases hdt : (FixGuidance.analyzeDependencyType c p).dependencyType <;>
        simp [hdt, hdir, htrans]
    · cases e <;> rfl
  · intro c p
    cases hval : FixGuidance.validateParameters p with
    | some e =>
        right
        exact ⟨e, by simp [FixGuidance.getVulnerabilityFixGuidance, hval]⟩
    | none =>
        cases hg : FixGuidance.fetchUpgradeGuidance c
            (FixGuidance.analyzeDependencyType c p).dependencyType
            (FixGuidance.analyzeDependencyType c p).guidanceComponentId
            (FixGuidance.analyzeDependencyType c p).guidanceComponentVersionId
            (FixGuidance.analyzeDependencyType c p).guidanceOriginId with
        | error e =>
            right
            exact ⟨e, by simp [FixGuidance.getVulnerabilityFixGuidance, hval, hg]⟩
        | ok g =>
            left
            exact ⟨FixGuidance.buildResponse p.vulnerabilityId
                (FixGuidance.fetchVulnerabilityContext c p)
                (FixGuidance.analyzeDependencyType c p).dependencyType g,
              by simp [FixGuidance.getVulnerabilityFixGuidance, hval, hg]⟩

/-- Witness for C3: a client whose guidance endpoints throw a
`NetworkError` yields exactly "NetworkError: guidance down". -/
theorem C3_guidance_error_formatting_witness :
    FixGuidance.getVulnerabilityFixGuidance guidanceErrorClient sampleParams =
      formatErrorForMCP (.blackDuck "NetworkError" "guidance down") ∧
    formatErrorForMCP (.blackDuck "NetworkError" "guidance down") =
      JsError.kind (.blackDuck "NetworkError" "guidance down") ++ ": " ++
        JsError.payload (.blackDuck "NetworkError" "guidance down") :=
  C3_guidance_error_formatting.1 guidanceErrorClient sampleParams
    (.blackDuck "NetworkError" "guidance down") (by decide)
    (fun _ _ => rfl) (fun _ _ _ => rfl)

/-! ### C10 — missing description renders the literal string "undefined" -/

/-- The description component of a built vulnerability block (absent for
the could-not-fetch placeholder shape). -/
def VulnerabilityBlock.descriptionText : VulnerabilityBlock → Option String
  | .details _ _ _ description _ _ _ => some description
  | .fallback _ _ => none

/-- C10: when the context fetch succeeds but the payload has no
`description` field, the built vulnerability block's description is the
literal string "undefined" (JS evaluates `undefined + ""` to that
string), not an absent field or the empty string. -/
theorem C10_missing_description_is_undefined
    (vulnerabilityId : String) (d : VulnerabilityDetails)
    (h : d.description = none) :
    (FixGuidance.buildVulnerabilityInfo vulnerabilityId (some d)).descriptionText =
      some "undefined" := by
  simp [FixGuidance.buildVulnerabilityInfo, jsDescription, h,
    VulnerabilityBlock.descriptionText]

/-- Witness for C10: a concrete details payload without a description. -/
theorem C10_missing_description_is_undefined_witness :
    (FixGuidance.buildVulnerabilityInfo "CVE-2023-1234"
        (some ⟨some "CVE-2023-1234", some "HIGH", some "7.5", none, none,
               some "NEW", some "CWE-79"⟩)).descriptionText = some "undefined" :=
  C10_missing_description_is_undefined "CVE-2023-1234"
    ⟨some "CVE-2023-1234", some "HIGH", some "7.5", none, none, some "NEW", some "CWE-79"⟩
    rfl

/-! ### C9 — refactored pipeline vs. monolith -/

/-- The href well-formedness that separates the two implementations: when a
guidance href contains an "origins" segment, the token right after it
must exist and be non-empty. -/
def hrefOriginsOk (href : String) : Bool :=
  let parts := jsSplit href '/'
  let oi := jsIndexOf parts "origins"
  oi = -1 || jsTruthy (jsGetAt parts (oi + 1))

/-- `hrefOriginsOk` lifted to a link. -/
def LinkObj.originsOk (l : LinkObj) : Bool :=
  match l.href with
  | some h => hrefOriginsOk h
  | none => true

/-- `hrefOriginsOk` lifted to a path node (all its links). -/
def PathNode.originsOk (n : PathNode) : Bool :=
  n.linksOf.all LinkObj.originsOk

/-- `hrefOriginsOk` lifted to a dependency-path item (all its nodes). -/
def DependencyPathItem.originsOk (it : DependencyPathItem) : Bool :=
  (it.path.getD []).all PathNode.originsOk

/-- The dependency-paths payload the client returns for the given
coordinates has only origins-well-formed hrefs (vacuously true when the
lookup throws). -/
def depPathsOriginsOk (c : BlackDuckClient)
    (p : GetVulnerabilityFixGuidanceParams) : Bool :=
  match c.getDependencyPaths p.projectId p.projectVersionId p.originId with
  | .error _ => true
  | .ok dp => (dp.items.getD []).all DependencyPathItem.originsOk

/-- A TRANSITIVE dependency path whose guidance href ends right at the
"origins" segment (the token after "origins" is missing). -/
def mismatchItem : DependencyPathItem :=
  ⟨.TRANSITIVE,
   some [⟨some ⟨some [⟨"transitive-upgrade-guidance",
            some "/api/components/C1/versions/V1/origins"⟩]⟩⟩,
         ⟨none⟩]⟩

/-- A client exhibiting the divergence: its transitive-guidance endpoint
reports (via `componentName`) which origin identifier it was called
with. -/
def mismatchClient : BlackDuckClient :=
  { getVulnerabilityRemediation := fun _ _ _ _ _ => .error (.error "ctx down")
    getDependencyPaths := fun _ _ _ => .ok ⟨some [mismatchItem]⟩
    getUpgradeGuidance := fun _ _ => .error (.error "unused")
    getTransitiveUpgradeGuidance := fun _ _ o =>
      .ok { componentName := some (jsTemplate o), versionName := none,
            originExternalId := none, shortTerm := none, longTerm := none } }

/-- Counterexample to C9: on this client and parameters the refactored
pipeline keeps the caller's originId (the extracted one is `undefined`,
hence falsy) while the monolith overwrites it with `undefined`; the
transitive-guidance call then differs and so do the outputs. -/
theorem C9_counterexample :
    FixGuidance.getVulnerabilityFixGuidance mismatchClient sampleParams ≠
      Remediation.getVulnerabilityFixGuidance mismatchClient sampleParams := by
  decide

/-- The monolith's local copy of `getTotalVulnerabilities` computes the
same function as the extracted utility. -/
theorem rem_getTotal_eq :
    Remediation.getTotalVulnerabilities = getTotalVulnerabilities := rfl

/-- The monolith's local copy of `calculateRiskReduction` computes the same
function as the extracted utility. -/
theorem rem_calcRisk_eq :
    Remediation.calculateRiskReduction = calculateRiskReduction := rfl

/-- Under origins-well-formed hrefs, the monolith's inline dependency
analysis agrees with the refactored `analyzeDependencyType` (the only
divergence between the two is the truthiness guard on the extracted
originId, which the hypothesis neutralises). -/
theorem analysis_agree (c : BlackDuckClient) (p : GetVulnerabilityFixGuidanceParams)
    (h : depPathsOriginsOk c p = true) :
    Remediation.resolveDependencyAnalysis c p = FixGuidance.analyzeDependencyType c p := by
  have hmain := h
  unfold depPathsOriginsOk at hmain
  unfold Remediation.resolveDependencyAnalysis FixGuidance.analyzeDependencyType
  cases hdp : c.getDependencyPaths p.projectId p.projectVersionId p.originId with
  | error e => rfl
  | ok dp =>
    rw [hdp] at hmain
    obtain ⟨items⟩ := dp
    cases items with
    | none => rfl
    | some l =>
      cases l with
      | nil => rfl
      | cons firstItem rest =>
        have hitem : firstItem.originsOk = true := by
          simp only [Option.getD_some, List.all_cons, Bool.and_eq_true] at hmain
          exact hmain.1
        dsimp only
        unfold extractComponentIdsFromPath
        cases hpath : firstItem.path with
        | none => rfl
        | some path =>
          dsimp only
          by_cases hlen : path.length ≤ 1
          · simp only [hlen, if_true]
          · simp only [hlen, if_false]
            cases hnode : path.get? (path.length - 2) with
            | none => rfl
            | some node =>
              dsimp only
              cases hfind : node.linksOf.find? (guidanceLinkMatches firstItem.type) with
              | none => rfl
              | some link =>
                dsimp only
                by_cases hhref : jsTruthy link.href = false
                · simp only [hhref, if_true]
                · rw [Bool.not_eq_false] at hhref
                  simp only [hhref, Bool.true_eq_false, if_false]
                  cases hl : link.href with
                  | none => rw [hl] at hhref
                  | some hstr =>
                    dsimp only
                    have hok : hrefOriginsOk hstr = true := by
                      have hn : node ∈ path := List.get?_mem hnode
                      have hlk : link ∈ node.linksOf := List.mem_of_find?_eq_some hfind
                      unfold DependencyPathItem.originsOk at hitem
                      rw [hpath] at hitem
                      simp only [Option.getD_some, List.all_eq_true] at hitem
                      have h2 := hitem node hn
                      unfold PathNode.originsOk at h2
                      simp only [List.all_eq_true] at h2
                      have h3 := h2 link hlk
                      unfold LinkObj.originsOk at h3
                      rw [hl] at h3
                      exact h3
                    unfold parseComponentIdsFromHref
                    by_cases hciv : (jsIndexOf (jsSplit hstr '/') "components" = -1 ∨
                        jsIndexOf (jsSplit hstr '/') "versions" = -1)
                    · have hciv2 : ¬(jsIndexOf (jsSplit hstr '/') "components" ≠ -1 ∧
                          jsIndexOf (jsSplit hstr '/') "versions" ≠ -1) := by tauto
                      simp only [hciv, if_true, hciv2, if_false]
                    · have hciv2 : jsIndexOf (jsSplit hstr '/') "components" ≠ -1 ∧
                          jsIndexOf (jsSplit hstr '/') "versions" ≠ -1 := by tauto
                      simp only [hciv, if_false, hciv2, and_self, if_true]
                      try dsimp only
                      by_cases horig : (jsIndexOf (jsSplit hstr '/') "origins" ≠ -1 ∧
                          firstItem.type = .TRANSITIVE)
                      · have htok : jsTruthy (jsGetAt (jsSplit hstr '/')
                            (jsIndexOf (jsSplit hstr '/') "origins" + 1)) = true := by
                          unfold hrefOriginsOk at hok
                          simp only [Bool.or_eq_true, decide_eq_true_eq] at hok
                          rcases hok with h1 | h1
                          · exact absurd h1 horig.1
                          · exact h1
                        simp [hciv2.1, hciv2.2, horig.1, horig.2, htok]
                      · simp [hciv2.1, hciv2.2, horig, jsTruthy]

/-- C9 as amended: the refactored pipeline and the monolith return the
same output for every parameter record and every client behaviour,
PROVIDED every guidance href in the returned dependency paths that
contains an "origins" segment has a non-empty token right after it (the
counterexample shows the unrestricted claim false). -/
theorem C9_amended_pipelines_agree (c : BlackDuckClient) (p : GetVulnerabilityFixGuidanceParams)
    (h : depPathsOriginsOk c p = true) :
    FixGuidance.getVulnerabilityFixGuidance c p =
      Remediation.getVulnerabilityFixGuidance c p := by
  by_cases h1 : jsBlank p.projectId = true
  · have hval : FixGuidance.validateParameters p =
        some (.error ("projectId" ++ " is required")) := by
      simp [FixGuidance.validateParameters, FixGuidance.requiredFields,
        FixGuidance.paramField, h1]
    simp [FixGuidance.getVulnerabilityFixGuidance,
      Remediation.getVulnerabilityFixGuidance, hval, h1, formatErrorForMCP]
  · rw [Bool.not_eq_true] at h1
    by_cases h2 : jsBlank p.projectVersionId = true
    · have hval : FixGuidance.validateParameters p =
          some (.error ("projectVersionId" ++ " is required")) := by
        simp [FixGuidance.validateParameters, FixGuidance.requiredFields,
          FixGuidance.paramField, h1, h2]
      simp [FixGuidance.getVulnerabilityFixGuidance,
        Remediation.getVulnerabilityFixGuidance, hval, h1, h2, formatErrorForMCP]
    · rw [Bool.not_eq_true] at h2
      by_cases h3 : jsBlank p.componentId = true
      · have hval : FixGuidance.validateParameters p =
            some (.error ("componentId" ++ " is required")) := by
          simp [FixGuidance.validateParameters, FixGuidance.requiredFields,
            FixGuidance.paramField, h1, h2, h3]
        simp [FixGuidance.getVulnerabilityFixGuidance,
          Remediation.getVulnerabilityFixGuidance, hval, h1, h2, h3, formatErrorForMCP]
      · rw [Bool.not_eq_true] at h3
        by_cases h4 : jsBlank p.componentVersionId = true
        · have hval : FixGuidance.validateParameters p =
              some (.error ("componentVersionId" ++ " is required")) := by
            simp [FixGuidance.validateParameters, FixGuidance.requiredFields,
              FixGuidance.paramField, h1, h2, h3, h4]
          simp [FixGuidance.getVulnerabilityFixGuidance,
            Remediation.getVulnerabilityFixGuidance, hval, h1, h2, h3, h4,
            formatErrorForMCP]
        · rw [Bool.not_eq_true] at h4
          by_cases h5 : jsBlank p.vulnerabilityId = true
          · have hval : FixGuidance.validateParameters p =
                some (.error ("vulnerabilityId" ++ " is required")) := by
              simp [FixGuidance.validateParameters, FixGuidance.requiredFields,
                FixGuidance.paramField, h1, h2, h3, h4, h5]
            simp [FixGuidance.getVulnerabilityFixGuidance,
              Remediation.getVulnerabilityFixGuidance, hval, h1, h2, h3, h4, h5,
              formatErrorForMCP]
          · rw [Bool.not_eq_true] at h5
            by_cases h6 : jsBlank p.originId = true
            · have hval : FixGuidance.validateParameters p =
                  some (.error ("originId" ++ " is required")) := by
                simp [FixGuidance.validateParameters, FixGuidance.requiredFields,
                  FixGuidance.paramField, h1, h2, h3, h4, h5, h6]
              simp [FixGuidance.getVulnerabilityFixGuidance,
                Remediation.getVulnerabilityFixGuidance, hval, h1, h2, h3, h4, h5, h6,
                formatErrorForMCP]
            · rw [Bool.not_eq_true] at h6
              have hval : FixGuidance.validateParameters p = none := by
                simp [FixGuidance.validateParameters, FixGuidance.requiredFields,
                  FixGuidance.paramField, h1, h2, h3, h4, h5, h6]
              have hana := analysis_agree c p h
              simp only [FixGuidance.getVulnerabilityFixGuidance,
                Remediation.getVulnerabilityFixGuidance, hval, h1, h2, h3, h4, h5, h6,
                Bool.false_eq_true, if_false,
                FixGuidance.fetchVulnerabilityContext, FixGuidance.fetchUpgradeGuidance,
                hana]
              cases hdt : (FixGuidance.analyzeDependencyType c p).dependencyType with
              | DIRECT =>
                  cases hg : c.getUpgradeGuidance
                      (FixGuidance.analyzeDependencyType c p).guidanceComponentId
                      (FixGuidance.analyzeDependencyType c p).guidanceComponentVersionId with
                  | error e => rfl
                  | ok g =>
                      obtain ⟨cn, vn, oe, stO, ltO⟩ := g
                      cases stO <;> cases ltO <;>
                        simp [FixGuidance.buildResponse, FixGuidance.buildVulnerabilityInfo,
                          FixGuidance.buildComponentInfo, FixGuidance.buildFixGuidanceSection,
                          FixGuidance.generateActionSteps, FixGuidance.generateNoFixActionSteps,
                          FixGuidance.generateDirectDependencyActionSteps,
                          FixGuidance.generateTransitiveDependencyActionSteps,
                          FixGuidance.generateRecommendation, generateComparisonRecommendation,
                          getFixAvailability, rem_getTotal_eq, rem_calcRisk_eq] <;>
                        cases c.getVulnerabilityRemediation p.projectId p.projectVersionId
                          p.componentId p.componentVersionId p.vulnerabilityId <;> rfl
              | TRANSITIVE =>
                  cases hg : c.getTransitiveUpgradeGuidance
                      (FixGuidance.analyzeDependencyType c p).guidanceComponentId
                      (FixGuidance.analyzeDependencyType c p).guidanceComponentVersionId
                      (FixGuidance.analyzeDependencyType c p).guidanceOriginId with
                  | error e => rfl
                  | ok g =>
                      obtain ⟨cn, vn, oe, stO, ltO⟩ := g
                      cases stO <;> cases ltO <;>
                        simp [FixGuidance.buildResponse, FixGuidance.buildVulnerabilityInfo,
                          FixGuidance.buildComponentInfo, FixGuidance.buildFixGuidanceSection,
                          FixGuidance.generateActionSteps, FixGuidance.generateNoFixActionSteps,
                          FixGuidance.generateDirectDependencyActionSteps,
                          FixGuidance.generateTransitiveDependencyActionSteps,
                          FixGuidance.generateRecommendation, generateComparisonRecommendation,
                          getFixAvailability, rem_getTotal_eq, rem_calcRisk_eq] <;>
                        cases c.getVulnerabilityRemediation p.projectId p.projectVersionId
                          p.componentId p.componentVersionId p.vulnerabilityId <;> rfl

/-- A client returning a well-formed TRANSITIVE dependency path (the token
after "origins" is present and non-empty). -/
def wellFormedPathClient : BlackDuckClient :=
  { getVulnerabilityRemediation := fun _ _ _ _ _ =>
      .ok ⟨some "CVE-2023-1234", some "HIGH", some "7.5", some "overflow", none,
           some "NEW", some "CWE-79"⟩
    getDependencyPaths := fun _ _ _ =>
      .ok ⟨some [⟨.TRANSITIVE,
        some [⟨some ⟨some [⟨"transitive-upgrade-guidance",
                some "/api/components/C1/versions/V1/origins/O1/transitive-upgrade-guidance"⟩]⟩⟩,
              ⟨none⟩]⟩]⟩
    getUpgradeGuidance := fun _ _ => .error (.error "unused")
    getTransitiveUpgradeGuidance := fun _ _ _ => .ok sampleGuidance }

/-- Witness for the amended C9: on a well-formed transitive scenario the
two pipelines coincide. -/
theorem C9_amended_pipelines_agree_witness :
    depPathsOriginsOk wellFormedPathClient sampleParams = true ∧
    FixGuidance.getVulnerabilityFixGuidance wellFormedPathClient sampleParams =
      Remediation.getVulnerabilityFixGuidance wellFormedPathClient sampleParams :=
  ⟨by decide,
   C9_amended_pipelines_agree wellFormedPathClient sampleParams (by decide)⟩
